import Mathlib

/-!
Verification development for the mecha-agent client pairing flow.

The definitions below are shallow embeddings of the temporal/state-machine
logic of the Svelte screens under src/client/app/src/routes (and the
unnamed duplicates of those screens): the identity-resolution race of
configure-machine, the connectivity gate of check-internet, the pairing
screen of link-machine (code rotation, confirmation polling, countdown),
and the machine-status screen with its liveness intervals.
Machine-level effects (rendering, actual timers) are modelled as explicit
event traces folded over step functions; each definition cites the source
lines it embeds.
-/

/- ===================================================================
   Identity resolution race: configure-machine/+page.svelte lines 8-40.

   The screen creates two promises:
     get_machine_id_data : resolves with the agent response of
       get_machine_id, or rejects with the agent error (a string);
       on resolution it writes machineInfo.set \x7b id \x7d (line 11);
     checkTimeout : setTimeout(reject, 15000, "Timeout") (line 21) with
       no clearTimeout registered anywhere in the file.
   After 3000 ms, Promise.race over the two dispatches the navigation
   (lines 24-40).

   We model the environment as the completion of the machineId call:
   none when the call never settles, some (t, r) when it settles at time
   t (milliseconds after entering the screen) with result r.
   =================================================================== -/

/-- Deadline of the identity resolution timer: 15000 ms (line 21). -/
def deadlineMs : Nat := 15000

/-- Delay before the race outcome is consulted: 3000 ms (line 40). -/
def initialDelayMs : Nat := 3000

deriving instance DecidableEq for Except

/-- Settlement events the race promise can observe: the machineId call
completing (with agent response or error string), or the deadline timer
firing. -/
inductive RaceEv where
  | machineIdDone (r : Except String String)
  | timerFire
deriving DecidableEq, Repr

/-- Timeline of settlement events in time order, given the completion
behaviour of the machineId call.  Because the source never calls
clearTimeout, the timer firing at deadlineMs is present in every
timeline, also when the call settles first; a tie at exactly deadlineMs
is resolved in favour of the timer. -/
def raceEvents (c : Option (Nat × Except String String)) :
    List (Nat × RaceEv) :=
  match c with
  | none => [(deadlineMs, RaceEv.timerFire)]
  | some (t, r) =>
    if t < deadlineMs then
      [(t, RaceEv.machineIdDone r), (deadlineMs, RaceEv.timerFire)]
    else
      [(deadlineMs, RaceEv.timerFire), (t, RaceEv.machineIdDone r)]

/-- Settle-once semantics of the race promise: the first event fixes the
result, later events are ignored (a firing timer rejects with the string
"Timeout", line 21). -/
def settleOnce (acc : Option (Except String String)) (e : Nat × RaceEv) :
    Option (Except String String) :=
  match acc with
  | some _ => acc
  | none =>
    match e.2 with
    | RaceEv.machineIdDone r => some r
    | RaceEv.timerFire => some (Except.error "Timeout")

/-- Result the race promise settles with. -/
def raceResult (c : Option (Nat × Except String String)) :
    Except String String :=
  ((raceEvents c).foldl settleOnce none).getD (Except.error "Timeout")

/-- Navigation targets of the configure-machine screen. -/
inductive ConfigRoute where
  | setupSuccess
  | timeoutService
  | setupFailed (msg : String)
deriving DecidableEq, Repr

/-- Error text carried to the setup-failed screen (line 36). -/
def failMsg : String := "Fetching machine data failed, Please try again"

/-- Navigation dispatch of the race outcome (lines 26-39): resolution
routes to /setup-success; a rejection equal to the string "Timeout"
routes to /timeout-service; any other rejection routes to /setup-failed
with failMsg. -/
def configDispatch (r : Except String String) : ConfigRoute :=
  match r with
  | Except.ok _ => ConfigRoute.setupSuccess
  | Except.error e =>
    if e = "Timeout" then ConfigRoute.timeoutService
    else ConfigRoute.setupFailed failMsg

/-- Value of the machineInfo store after the session: the then-handler of
get_machine_id_data (line 11) writes the resolved id whenever the call
succeeds, independently of the race. -/
def storeAfterRace (c : Option (Nat × Except String String)) :
    Option String :=
  match c with
  | some (_, Except.ok id) => some id
  | _ => none

/- ===================================================================
   Connectivity gate: check-internet screen (src/unnamed/part_001 and
   part_002, lines 12-24).  After 2000 ms the screen calls
   check_ping_status once and routes on the result.
   =================================================================== -/

/-- Navigation targets of the check-internet screen. -/
inductive CheckNetRoute where
  | linkMachine
  | noInternet
  | setupFailedNet (e : String)
deriving DecidableEq, Repr

/-- Routing of the one-shot connectivity check (part_001 lines 14-22):
a successful call routes on data.code == "success" to /link-machine,
otherwise to /no-internet; a rejected call routes to /setup-failed with
the error. -/
def checkInternetRoute (r : Except String String) : CheckNetRoute :=
  match r with
  | Except.ok code =>
    if code = "success" then CheckNetRoute.linkMachine
    else CheckNetRoute.noInternet
  | Except.error e => CheckNetRoute.setupFailedNet e

/- ===================================================================
   Pairing screen: link-machine/+page.svelte (and its unnamed duplicate
   src/unnamed/part_005).  Three intervals run while the screen lives:
     generate_code_process (60000 ms, lines 44-46): generate_code_req;
     provision_code_process (20000 ms, lines 48-70): if is_code_generated,
       awaits provision_by_code(provision_code) and classifies the result;
     update_timer (1000 ms, lines 72-77): display countdown.
   onMount (lines 40-42) runs generate_code_req once;
   clearIntervalProcess (lines 79-84) clears all three intervals and sets
   apiInProgress to false; the reactive block (lines 86-92) navigates on
   is_code_provision or is_error; onDestroy (lines 94-96) runs
   clearIntervalProcess.

   The event loop is modelled as a trace of events folded over linkStep.
   An interval handler that awaits is split into its start (the code up
   to the await, including issuing the agent call) and its resumption
   (the code after the await, fired by a later completion event).  The
   ghost fields inflightGen/inflightSubmit/submitLog/genOkCount record
   the outstanding and past agent calls; completion events that have no
   outstanding call are ignored by the step function, so every event
   list denotes a realisable schedule.
   =================================================================== -/

/-- Case-insensitive lowering as performed by the source via
error.toLowerCase() (line 63). -/
def jsToLower (s : String) : String := String.mk (s.data.map Char.toLower)

/-- Substring test as performed by the source via String.includes
(line 63). -/
def jsIncludes (hay needle : String) : Bool :=
  (List.range (hay.data.length + 1)).any
    (fun i => needle.data.isPrefixOf (hay.data.drop i))

/-- Navigation targets reachable from the pairing screen (lines 86-92). -/
inductive LinkNav where
  | configureMachine
  | linkSetupFailed (msg : String)
deriving DecidableEq, Repr

/-- Events of the pairing screen's cooperative event loop. -/
inductive LinkEv where
  | mount
  | genTick
  | genDone (r : Except String String)
  | pollTick
  | pollDone (r : Except String Bool)
  | timerTick
  | destroy
deriving DecidableEq, Repr

/-- State of the pairing screen: the script's mutable bindings
(lines 12-20) plus ghost fields for the interval set, navigation and the
outstanding/past agent calls. -/
structure LinkState where
  provision_code : String
  is_code_generated : Bool
  is_code_provision : Bool
  error_message : String
  apiInProgress : Bool
  is_error : Bool
  countdown : Int
  cleared : Bool
  nav : Option LinkNav
  inflightGen : Nat
  inflightSubmit : List String
  submitLog : List String
  genOkCount : Nat
deriving DecidableEq, Repr

/-- Initial bindings of the pairing screen (lines 12-20): the code
placeholder is the one-space string, is_code_generated is false, the
countdown starts at 60. -/
def linkInit : LinkState :=
  { provision_code := " "
    is_code_generated := false
    is_code_provision := false
    error_message := ""
    apiInProgress := true
    is_error := false
    countdown := 60
    cleared := false
    nav := none
    inflightGen := 0
    inflightSubmit := []
    submitLog := []
    genOkCount := 0 }

/-- generate_code_req up to its await (lines 22-28): reset the countdown
to 60, force apiInProgress to true, and issue a generate_code call. -/
def generate_code_start (s : LinkState) : LinkState :=
  { s with countdown := 60, apiInProgress := true,
           inflightGen := s.inflightGen + 1 }

/-- generate_code_req after its await (lines 28-36): on success store the
code and set is_code_generated; on error set is_error and the generic
error message. -/
def generate_code_finish (s : LinkState) (r : Except String String) :
    LinkState :=
  match r with
  | Except.ok code =>
    { s with provision_code := code, is_code_generated := true,
             inflightGen := s.inflightGen - 1,
             genOkCount := s.genOkCount + 1 }
  | Except.error _ =>
    { s with is_error := true,
             error_message := "Something went wrong! Try again!",
             inflightGen := s.inflightGen - 1 }

/-- provision_code_process tick up to its await (lines 48-52): only when
is_code_generated is true, issue a provision_by_code call with the
current code.  There is no other gate: outstanding calls are not
consulted. -/
def provision_code_start (s : LinkState) : LinkState :=
  if s.is_code_generated then
    { s with inflightSubmit := s.provision_code :: s.inflightSubmit,
             submitLog := s.provision_code :: s.submitLog }
  else s

/-- provision_code_process after its await (lines 52-67): success=true
sets is_code_provision; success=false clears apiInProgress and records
the incorrect-code message; an error whose lowered text contains
"parse response" only clears apiInProgress; any other error additionally
sets is_error and the generic error message. -/
def provision_code_finish (s : LinkState) (r : Except String Bool) :
    LinkState :=
  match r with
  | Except.ok success =>
    if success then
      { s with is_code_provision := true, apiInProgress := true,
               inflightSubmit := s.inflightSubmit.tail }
    else
      { s with is_code_provision := false, apiInProgress := false,
               error_message := "Incorrect code! Try again!",
               inflightSubmit := s.inflightSubmit.tail }
  | Except.error e =>
    if jsIncludes (jsToLower e) "parse response" then
      { s with apiInProgress := false,
               inflightSubmit := s.inflightSubmit.tail }
    else
      { s with apiInProgress := false, is_error := true,
               error_message := "Something went wrong! Try again!",
               inflightSubmit := s.inflightSubmit.tail }

/-- update_timer tick (lines 72-77): while is_code_generated, first reset
a non-positive countdown to 60, then decrement. -/
def update_timer_tick (s : LinkState) : LinkState :=
  if s.is_code_generated then
    { s with countdown := (if s.countdown ≤ 0 then 60 else s.countdown) - 1 }
  else s

/-- clearIntervalProcess (lines 79-84): clear all three intervals and set
apiInProgress to false. -/
def clearIntervalProcess (s : LinkState) : LinkState :=
  { s with apiInProgress := false, cleared := true }

/-- The reactive block (lines 86-92), run after every state change while
the screen is alive: if is_code_provision, clear the intervals and
navigate to /configure-machine; otherwise if is_error, navigate to
/setup-failed with the current error message. -/
def linkReactive (s : LinkState) : LinkState :=
  if s.nav.isSome then s
  else if s.is_code_provision then
    { s with apiInProgress := false, cleared := true,
             nav := some LinkNav.configureMachine }
  else if s.is_error then
    { s with nav := some (LinkNav.linkSetupFailed s.error_message) }
  else s

/-- One event of the pairing screen.  Interval ticks fire only while the
intervals are not cleared; completion events with no outstanding call
are ignored; destroy runs clearIntervalProcess (lines 94-96). -/
def linkStep (s : LinkState) : LinkEv → LinkState
  | LinkEv.mount => linkReactive (generate_code_start s)
  | LinkEv.genTick =>
    if s.cleared then s else linkReactive (generate_code_start s)
  | LinkEv.genDone r =>
    if s.inflightGen = 0 then s else linkReactive (generate_code_finish s r)
  | LinkEv.pollTick =>
    if s.cleared then s else linkReactive (provision_code_start s)
  | LinkEv.pollDone r =>
    if s.inflightSubmit = [] then s
    else linkReactive (provision_code_finish s r)
  | LinkEv.timerTick =>
    if s.cleared then s else linkReactive (update_timer_tick s)
  | LinkEv.destroy => clearIntervalProcess s

/-- Run of the pairing screen on a trace of events. -/
def linkRun (es : List LinkEv) : LinkState := es.foldl linkStep linkInit

/-- Interval periods of the pairing screen, milliseconds
(lines 46, 70, 77). -/
def rotationPeriodMs : Nat := 60000

/-- Poll period of provision_code_process (line 70). -/
def pollPeriodMs : Nat := 20000

/-- Countdown tick period of update_timer (line 77). -/
def countdownPeriodMs : Nat := 1000

/- ===================================================================
   Machine status screen: machine-info/+page.svelte lines 45-76 (and the
   configured-machine status variant, second document of
   configure-machine/+page.svelte lines 93-124, identical but for the
   metadata period and the error surface).  Two intervals are
   registered at script top level:
     setInterval(check_active_status, 10000)  (lines 66-68);
     setInterval(get_machine_data, 1200)      (lines 70-72; 7000 in the
       configure-machine variant).
   Neither interval handle is stored, the file contains no clearInterval
   call and registers no onDestroy hook, so tearing the screen down
   removes neither interval.
   =================================================================== -/

/-- Health cadence period (line 68). -/
def healthPeriodMs : Nat := 10000

/-- Metadata cadence period (line 72; 7000 in the configure-machine
variant). -/
def metadataPeriodMs : Nat := 1200

/-- State of the machine status screen: the script's mutable bindings
(lines 16-23) plus one registration flag per interval. -/
structure StatusState where
  machine_name : String
  machine_icon : String
  is_active : Bool
  is_error : Bool
  error_message : String
  healthIntervalActive : Bool
  metadataIntervalActive : Bool
deriving DecidableEq, Repr

/-- Bindings right after the two setInterval registrations. -/
def statusInit : StatusState :=
  { machine_name := "My Machine"
    machine_icon := ""
    is_active := false
    is_error := false
    error_message := ""
    healthIntervalActive := true
    metadataIntervalActive := true }

/-- Events of the status screen: a health tick carrying the
check_ping_status result, a metadata tick carrying the get_machine_info
result (name and icon), and the teardown of the screen. -/
inductive StatusEv where
  | healthTick (r : Except String String)
  | metaTick (r : Except String (String × String))
  | teardown
deriving DecidableEq, Repr

/-- check_active_status (lines 45-55): on success, is_active reflects
data.code == "success"; on error, is_active is false, is_error is set and
the error message recorded. -/
def check_active_status (s : StatusState) (r : Except String String) :
    StatusState :=
  match r with
  | Except.ok code => { s with is_active := (code = "success") }
  | Except.error _ =>
    { s with is_active := false, is_error := true,
             error_message :=
               "Machine agent not running or there is no internet connectivity" }

/-- get_machine_data (lines 25-35): on success overwrite machine_name
(falling back to "My Machine" when the value is falsy) and machine_icon;
on error leave both untouched. -/
def get_machine_data (s : StatusState) (r : Except String (String × String)) :
    StatusState :=
  match r with
  | Except.ok (name, icon) =>
    { s with machine_name := if name = "" then "My Machine" else name,
             machine_icon := icon }
  | Except.error _ => s

/-- One event of the status screen.  A tick fires only while its
interval is registered.  Teardown runs the cleanup the source registers
for this screen, which is none: the file has no onDestroy hook and no
clearInterval call, so both registration flags survive teardown. -/
def statusStep (s : StatusState) : StatusEv → StatusState
  | StatusEv.healthTick r =>
    if s.healthIntervalActive then check_active_status s r else s
  | StatusEv.metaTick r =>
    if s.metadataIntervalActive then get_machine_data s r else s
  | StatusEv.teardown => s

/-- Run of the status screen on a trace of events. -/
def statusRun (es : List StatusEv) : StatusState :=
  es.foldl statusStep statusInit

/- ===================================================================
   Helper lemmas.
   =================================================================== -/

/-- The reactive block only touches apiInProgress, cleared and nav. -/
@[simp]
theorem linkReactive_submitLog (s : LinkState) :
    (linkReactive s).submitLog = s.submitLog := by
  unfold linkReactive; split; · rfl
  split; · rfl
  split <;> rfl

/-- Reactive preservation of the outstanding submit calls. -/
@[simp]
theorem linkReactive_inflightSubmit (s : LinkState) :
    (linkReactive s).inflightSubmit = s.inflightSubmit := by
  unfold linkReactive; split; · rfl
  split; · rfl
  split <;> rfl

/-- Reactive preservation of the outstanding generate calls. -/
@[simp]
theorem linkReactive_inflightGen (s : LinkState) :
    (linkReactive s).inflightGen = s.inflightGen := by
  unfold linkReactive; split; · rfl
  split; · rfl
  split <;> rfl

/-- Reactive preservation of the successful-generation counter. -/
@[simp]
theorem linkReactive_genOkCount (s : LinkState) :
    (linkReactive s).genOkCount = s.genOkCount := by
  unfold linkReactive; split; · rfl
  split; · rfl
  split <;> rfl

/-- Reactive preservation of the code-generated flag. -/
@[simp]
theorem linkReactive_is_code_generated (s : LinkState) :
    (linkReactive s).is_code_generated = s.is_code_generated := by
  unfold linkReactive; split; · rfl
  split; · rfl
  split <;> rfl

/-- Reactive preservation of the active code. -/
@[simp]
theorem linkReactive_provision_code (s : LinkState) :
    (linkReactive s).provision_code = s.provision_code := by
  unfold linkReactive; split; · rfl
  split; · rfl
  split <;> rfl

/-- Reactive preservation of the countdown. -/
@[simp]
theorem linkReactive_countdown (s : LinkState) :
    (linkReactive s).countdown = s.countdown := by
  unfold linkReactive; split; · rfl
  split; · rfl
  split <;> rfl

/-- Reactive preservation of the error message. -/
@[simp]
theorem linkReactive_error_message (s : LinkState) :
    (linkReactive s).error_message = s.error_message := by
  unfold linkReactive; split; · rfl
  split; · rfl
  split <;> rfl

/-- Reactive preservation of the error flag. -/
@[simp]
theorem linkReactive_is_error (s : LinkState) :
    (linkReactive s).is_error = s.is_error := by
  unfold linkReactive; split; · rfl
  split; · rfl
  split <;> rfl

/-- When neither navigation condition holds, the reactive block is the
identity. -/
theorem linkReactive_id (s : LinkState) (h1 : s.is_code_provision = false)
    (h2 : s.is_error = false) : linkReactive s = s := by
  unfold linkReactive
  simp [h1, h2]

/-- Settling before the deadline yields the call's own result. -/
theorem raceResult_before (t : Nat) (r : Except String String)
    (h : t < deadlineMs) : raceResult (some (t, r)) = r := by
  unfold raceResult raceEvents
  simp [h, settleOnce, List.foldl]

/-- Settling at or after the deadline yields the timer's rejection. -/
theorem raceResult_after (t : Nat) (r : Except String String)
    (h : deadlineMs ≤ t) :
    raceResult (some (t, r)) = Except.error "Timeout" := by
  unfold raceResult raceEvents
  simp [Nat.not_lt.mpr h, settleOnce, List.foldl]

/-- A call that never settles leaves only the timer. -/
theorem raceResult_none : raceResult none = Except.error "Timeout" := rfl

/- ===================================================================
   Claim theorems.
   =================================================================== -/

/-- C1 counterexample: the claim says a machineId failure before the
deadline always yields Failed and routes to the generic setup-failed
screen; but the dispatch (configure-machine lines 30-39) classifies any
rejection whose text equals the string "Timeout" as the timeout case, so
a machineId call failing at 1000 ms with the error text "Timeout" routes
to /timeout-service, not to /setup-failed. -/
theorem c1_counterexample :
    configDispatch (raceResult (some (1000, Except.error "Timeout"))) =
      ConfigRoute.timeoutService ∧
    configDispatch (raceResult (some (1000, Except.error "Timeout"))) ≠
      ConfigRoute.setupFailed failMsg := by
  exact ⟨rfl, by decide⟩

/-- C1 (amended): the race outcome of identity resolution is exactly one
of success, timeout and failure; a machineId failure before the 15000 ms
deadline whose error text differs from the literal string "Timeout"
routes to the generic setup-failed screen with the fixed error message;
if the call settles at or after the deadline, or never, the outcome is
the timeout route /timeout-service, never the generic failure screen;
success before the deadline routes to the success screen with the
resolved id written to the machineInfo store. -/
theorem c1_theorem (t : Nat) (e id : String) :
    (t < deadlineMs → e ≠ "Timeout" →
      configDispatch (raceResult (some (t, Except.error e))) =
        ConfigRoute.setupFailed failMsg) ∧
    configDispatch (raceResult none) = ConfigRoute.timeoutService ∧
    (deadlineMs ≤ t →
      configDispatch (raceResult (some (t, Except.error e))) =
        ConfigRoute.timeoutService ∧
      configDispatch (raceResult (some (t, Except.ok id))) =
        ConfigRoute.timeoutService) ∧
    (t < deadlineMs →
      configDispatch (raceResult (some (t, Except.ok id))) =
        ConfigRoute.setupSuccess ∧
      storeAfterRace (some (t, Except.ok id)) = some id) := by
  refine ⟨?_, rfl, ?_, ?_⟩
  · intro ht he
    rw [raceResult_before t _ ht]
    unfold configDispatch
    simp [he]
  · intro ht
    rw [raceResult_after _ _ ht, raceResult_after _ _ ht]
    exact ⟨rfl, rfl⟩
  · intro ht
    rw [raceResult_before _ _ ht]
    exact ⟨rfl, rfl⟩

/-- C1 witness: the three branches of the amended claim at concrete
inputs. -/
theorem c1_witness :
    configDispatch (raceResult (some (1000, Except.error "boom"))) =
      ConfigRoute.setupFailed failMsg ∧
    configDispatch (raceResult (some (20000, Except.ok "dev-123"))) =
      ConfigRoute.timeoutService ∧
    configDispatch (raceResult (some (1000, Except.ok "dev-123"))) =
      ConfigRoute.setupSuccess := by
  refine ⟨(c1_theorem 1000 "boom" "dev-123").1 (by decide) (by decide),
          ((c1_theorem 20000 "boom" "dev-123").2.2.1 (by decide)).2,
          ((c1_theorem 1000 "boom" "dev-123").2.2.2 (by decide)).1⟩

/-- C3 counterexample: the claim says the deadline timer is cancelled the
instant the machineId call resolves, not merely ignored; but the source
registers no clearTimeout, so when the call succeeds at 1000 ms the
timer firing at 15000 ms is still present in the event timeline — the
race merely ignores it because it has already settled. -/
theorem c3_counterexample :
    raceEvents (some (1000, Except.ok "dev-123")) =
      [(1000, RaceEv.machineIdDone (Except.ok "dev-123")),
       (deadlineMs, RaceEv.timerFire)] ∧
    raceResult (some (1000, Except.ok "dev-123")) = Except.ok "dev-123" := by
  exact ⟨rfl, rfl⟩

/-- C3 (amended): when the machineId call settles before the deadline,
the deadline timer is not cancelled — its firing at 15000 ms remains in
the timeline — but the race promise settles once, so the stray firing
changes nothing: the outcome is the call's own result, and a successful
call before the deadline always routes to the success screen, never to
the timeout screen; Success and Timeout remain mutually exclusive. -/
theorem c3_theorem (t : Nat) (r : Except String String) (id : String)
    (h : t < deadlineMs) :
    raceResult (some (t, r)) = r ∧
    (deadlineMs, RaceEv.timerFire) ∈ raceEvents (some (t, r)) ∧
    configDispatch (raceResult (some (t, Except.ok id))) =
      ConfigRoute.setupSuccess := by
  refine ⟨raceResult_before _ _ h, ?_, ?_⟩
  · unfold raceEvents
    simp [h]
  · rw [raceResult_before _ _ h]
    rfl

/-- C3 witness: the amended claim at a call succeeding at 1000 ms. -/
theorem c3_witness :
    raceResult (some (1000, Except.ok "dev-9")) = Except.ok "dev-9" ∧
    (deadlineMs, RaceEv.timerFire) ∈ raceEvents (some (1000, Except.ok "dev-9")) := by
  exact ⟨(c3_theorem 1000 (Except.ok "dev-9") "dev-9" (by decide)).1,
         (c3_theorem 1000 (Except.ok "dev-9") "dev-9" (by decide)).2.1⟩

/-- C9 counterexample: the claim says any agent error yields
reachable=false and that failure routes to the no-connectivity screen;
but the check-internet handler (part_001 lines 17-22) routes a rejected
ping call to /setup-failed carrying the error, not to /no-internet. -/
theorem c9_counterexample :
    checkInternetRoute (Except.error "agent unreachable") =
      CheckNetRoute.setupFailedNet "agent unreachable" ∧
    checkInternetRoute (Except.error "agent unreachable") ≠
      CheckNetRoute.noInternet := by
  exact ⟨rfl, by decide⟩

/-- C9 (amended): the one-shot connectivity check routes to the pairing
screen exactly when the ping call succeeds with status code "success";
a successful call with any other status code routes to the
no-connectivity screen; a rejected call routes to the setup-failed
screen carrying the error, not to the no-connectivity screen. -/
theorem c9_theorem (r : Except String String) (c e : String) :
    (checkInternetRoute r = CheckNetRoute.linkMachine ↔
      r = Except.ok "success") ∧
    (c ≠ "success" →
      checkInternetRoute (Except.ok c) = CheckNetRoute.noInternet) ∧
    checkInternetRoute (Except.error e) = CheckNetRoute.setupFailedNet e := by
  refine ⟨?_, ?_, rfl⟩
  · cases r with
    | ok code =>
      unfold checkInternetRoute
      by_cases hc : code = "success"
      · simp [hc]
      · simp [hc]
    | error e' =>
      unfold checkInternetRoute
      simp
  · intro hc
    unfold checkInternetRoute
    simp [hc]

/-- C9 witness: the amended claim at concrete ping outcomes. -/
theorem c9_witness :
    checkInternetRoute (Except.ok "success") = CheckNetRoute.linkMachine ∧
    checkInternetRoute (Except.ok "failure") = CheckNetRoute.noInternet := by
  exact ⟨(c9_theorem (Except.ok "success") "x" "y").1.mpr rfl,
         (c9_theorem (Except.ok "x") "failure" "y").2.1 (by decide)⟩

/-- C4: the status screen registers its 10000 ms health interval and its
metadata interval at script top level, stores no handle, has no
clearInterval call and no onDestroy hook, so the teardown of the screen
cancels neither cadence, and a health tick arriving after teardown still
mutates observable state (is_active flips from true to false on an agent
error) — contradicting the required deterministic cancellation. -/
theorem c4_code_bug_eval :
    statusStep statusInit StatusEv.teardown = statusInit ∧
    (statusRun [StatusEv.healthTick (Except.ok "success"),
                StatusEv.teardown]).healthIntervalActive = true ∧
    (statusRun [StatusEv.healthTick (Except.ok "success"),
                StatusEv.teardown]).metadataIntervalActive = true ∧
    (statusRun [StatusEv.healthTick (Except.ok "success"),
                StatusEv.teardown]).is_active = true ∧
    (statusRun [StatusEv.healthTick (Except.ok "success"), StatusEv.teardown,
                StatusEv.healthTick (Except.error "agent down")]).is_active
      = false ∧
    (statusRun [StatusEv.healthTick (Except.ok "success"), StatusEv.teardown,
                StatusEv.metaTick (Except.ok ("NewName", "icon.png"))]).machine_name
      = "NewName" := by
  exact ⟨rfl, rfl, rfl, rfl, rfl, rfl⟩

/-- C2 counterexample: the claim says that after a successful poll with
success=false, further polling is gated off until a new code cycle; but
the poll handler is gated only on is_code_generated (line 49), which the
success=false branch leaves true, so the very next 20-second tick
submits the same code again with no new code cycle in between: after
mount, one generated code "ABCD", one poll and its success=false
completion, the next poll tick yields a second submission of "ABCD"
while the successful-generation count is still one. -/
theorem c2_counterexample :
    (linkRun [LinkEv.mount, LinkEv.genDone (Except.ok "ABCD"),
              LinkEv.pollTick, LinkEv.pollDone (Except.ok false),
              LinkEv.pollTick]).submitLog = ["ABCD", "ABCD"] ∧
    (linkRun [LinkEv.mount, LinkEv.genDone (Except.ok "ABCD"),
              LinkEv.pollTick, LinkEv.pollDone (Except.ok false),
              LinkEv.pollTick]).genOkCount = 1 := by
  exact ⟨by decide, by decide⟩

/-- C2 (amended): when a poll completes successfully with success=false,
the incorrect-code message is recorded in error_message, the error flag
stays off and no navigation to a failure screen occurs, the intervals
stay registered so code rotation continues — a subsequent rotation tick
still issues a new generate_code call and resets the countdown to 60 —
but polling is not suspended: the very next poll tick submits the
current code again, gated only on is_code_generated. -/
theorem c2_theorem (s : LinkState) (hn : s.nav = none)
    (he : s.is_error = false)
    (hc : s.cleared = false) (hg : s.is_code_generated = true)
    (hin : s.inflightSubmit ≠ []) :
    (linkStep s (LinkEv.pollDone (Except.ok false))).error_message =
      "Incorrect code! Try again!" ∧
    (linkStep s (LinkEv.pollDone (Except.ok false))).nav = none ∧
    (linkStep s (LinkEv.pollDone (Except.ok false))).is_error = false ∧
    (linkStep s (LinkEv.pollDone (Except.ok false))).cleared = false ∧
    (linkStep (linkStep s (LinkEv.pollDone (Except.ok false)))
        LinkEv.genTick).inflightGen = s.inflightGen + 1 ∧
    (linkStep (linkStep s (LinkEv.pollDone (Except.ok false)))
        LinkEv.genTick).countdown = 60 ∧
    (linkStep (linkStep s (LinkEv.pollDone (Except.ok false)))
        LinkEv.pollTick).submitLog = s.provision_code :: s.submitLog := by
  have hstep : linkStep s (LinkEv.pollDone (Except.ok false)) =
      linkReactive { s with is_code_provision := false,
                            apiInProgress := false,
                            error_message := "Incorrect code! Try again!",
                            inflightSubmit := s.inflightSubmit.tail } := by
    unfold linkStep provision_code_finish
    simp [hin]
  have hid :
      linkReactive { s with is_code_provision := false,
                            apiInProgress := false,
                            error_message := "Incorrect code! Try again!",
                            inflightSubmit := s.inflightSubmit.tail } =
      { s with is_code_provision := false,
               apiInProgress := false,
               error_message := "Incorrect code! Try again!",
               inflightSubmit := s.inflightSubmit.tail } := by
    exact linkReactive_id _ rfl he
  rw [hstep, hid]
  refine ⟨rfl, hn, he, hc, ?_, ?_, ?_⟩
  · unfold linkStep generate_code_start
    simp [hc]
  · unfold linkStep generate_code_start
    simp [hc]
  · unfold linkStep provision_code_start
    simp [hc, hg]

/-- C2 witness: the amended claim at the concrete state reached by
mount, a generated code and one outstanding poll. -/
theorem c2_witness :
    (linkStep (linkRun [LinkEv.mount, LinkEv.genDone (Except.ok "ABCD"),
                        LinkEv.pollTick])
        (LinkEv.pollDone (Except.ok false))).error_message =
      "Incorrect code! Try again!" :=
  (c2_theorem (linkRun [LinkEv.mount, LinkEv.genDone (Except.ok "ABCD"),
                        LinkEv.pollTick])
    (by decide) (by decide) (by decide) (by decide) (by decide)).1

/-- C5 counterexample: the claim says a poll tick firing while a previous
submitCode call is still outstanding is skipped; but the handler has no
in-flight guard, so after one generated code "XY" two consecutive poll
ticks with no completion in between leave two outstanding submitCode
calls for the same code "XY". -/
theorem c5_counterexample :
    (linkRun [LinkEv.mount, LinkEv.genDone (Except.ok "XY"),
              LinkEv.pollTick, LinkEv.pollTick]).inflightSubmit =
      ["XY", "XY"] := by
  decide

/-- C5 (amended): a poll tick is gated only on is_code_generated, never
on the outstanding calls: while the intervals are registered, a tick
starts exactly one new submitCode call with the current code whenever
is_code_generated holds (so calls accumulate when one outlasts the
20-second period) and starts none otherwise. -/
theorem c5_theorem (s : LinkState) (hc : s.cleared = false) :
    (linkStep s LinkEv.pollTick).inflightSubmit =
      (if s.is_code_generated then s.provision_code :: s.inflightSubmit
       else s.inflightSubmit) ∧
    (linkStep s LinkEv.pollTick).submitLog =
      (if s.is_code_generated then s.provision_code :: s.submitLog
       else s.submitLog) := by
  unfold linkStep provision_code_start
  by_cases hg : s.is_code_generated
  · simp [hc, hg]
  · simp [hc, hg]

/-- C5 witness: the amended claim evaluated at a state with one call
already outstanding. -/
theorem c5_witness :
    (linkStep (linkRun [LinkEv.mount, LinkEv.genDone (Except.ok "XY"),
                        LinkEv.pollTick]) LinkEv.pollTick).inflightSubmit =
      (if (linkRun [LinkEv.mount, LinkEv.genDone (Except.ok "XY"),
                    LinkEv.pollTick]).is_code_generated then
        (linkRun [LinkEv.mount, LinkEv.genDone (Except.ok "XY"),
                  LinkEv.pollTick]).provision_code ::
          (linkRun [LinkEv.mount, LinkEv.genDone (Except.ok "XY"),
                    LinkEv.pollTick]).inflightSubmit
       else (linkRun [LinkEv.mount, LinkEv.genDone (Except.ok "XY"),
                      LinkEv.pollTick]).inflightSubmit) :=
  (c5_theorem (linkRun [LinkEv.mount, LinkEv.genDone (Except.ok "XY"),
                        LinkEv.pollTick]) (by decide)).1

/-- C6: when an outstanding poll completes with success=true on the live
screen, the confirmation handler sets is_code_provision, the reactive
block runs clearIntervalProcess — clearing the rotation, polling and
countdown intervals together — and navigates to /configure-machine, the
identity-resolution screen; afterwards every rotation, poll or countdown
tick leaves the state unchanged, so no further code rotation occurs in
the session. -/
theorem c6_theorem (s : LinkState) (hn : s.nav = none)
    (hin : s.inflightSubmit ≠ []) :
    (linkStep s (LinkEv.pollDone (Except.ok true))).cleared = true ∧
    (linkStep s (LinkEv.pollDone (Except.ok true))).nav =
      some LinkNav.configureMachine ∧
    linkStep (linkStep s (LinkEv.pollDone (Except.ok true))) LinkEv.genTick =
      linkStep s (LinkEv.pollDone (Except.ok true)) ∧
    linkStep (linkStep s (LinkEv.pollDone (Except.ok true))) LinkEv.pollTick =
      linkStep s (LinkEv.pollDone (Except.ok true)) ∧
    linkStep (linkStep s (LinkEv.pollDone (Except.ok true))) LinkEv.timerTick =
      linkStep s (LinkEv.pollDone (Except.ok true)) := by
  have hstep : linkStep s (LinkEv.pollDone (Except.ok true)) =
      { s with is_code_provision := true,
               apiInProgress := false,
               cleared := true,
               nav := some LinkNav.configureMachine,
               inflightSubmit := s.inflightSubmit.tail } := by
    unfold linkStep provision_code_finish linkReactive
    simp [hin, hn]
  rw [hstep]
  refine ⟨rfl, rfl, ?_, ?_, ?_⟩ <;>
    · unfold linkStep
      simp

/-- C6 witness: confirmation at the concrete state reached by mount, a
generated code and one outstanding poll. -/
theorem c6_witness :
    (linkStep (linkRun [LinkEv.mount, LinkEv.genDone (Except.ok "AB"),
                        LinkEv.pollTick])
        (LinkEv.pollDone (Except.ok true))).nav =
      some LinkNav.configureMachine :=
  (c6_theorem (linkRun [LinkEv.mount, LinkEv.genDone (Except.ok "AB"),
                        LinkEv.pollTick]) (by decide) (by decide)).2.1

/-- C7: when an outstanding poll fails on the live screen, an agent
error whose lowered text contains "parse response" is transient — the
error flag stays off, no navigation occurs, the intervals stay
registered and the next poll tick submits again — while any other agent
error sets the error flag and the reactive block navigates to the
/setup-failed screen carrying the generic error message. -/
theorem c7_theorem (s : LinkState) (e : String) (hn : s.nav = none)
    (hp : s.is_code_provision = false) (he : s.is_error = false)
    (hc : s.cleared = false) (hg : s.is_code_generated = true)
    (hin : s.inflightSubmit ≠ []) :
    (jsIncludes (jsToLower e) "parse response" = true →
      (linkStep s (LinkEv.pollDone (Except.error e))).is_error = false ∧
      (linkStep s (LinkEv.pollDone (Except.error e))).nav = none ∧
      (linkStep s (LinkEv.pollDone (Except.error e))).cleared = false ∧
      (linkStep (linkStep s (LinkEv.pollDone (Except.error e)))
          LinkEv.pollTick).submitLog = s.provision_code :: s.submitLog) ∧
    (jsIncludes (jsToLower e) "parse response" = false →
      (linkStep s (LinkEv.pollDone (Except.error e))).is_error = true ∧
      (linkStep s (LinkEv.pollDone (Except.error e))).nav =
        some (LinkNav.linkSetupFailed "Something went wrong! Try again!")) := by
  constructor
  · intro hparse
    have hstep : linkStep s (LinkEv.pollDone (Except.error e)) =
        { s with apiInProgress := false,
                 inflightSubmit := s.inflightSubmit.tail } := by
      simp only [linkStep, provision_code_finish]
      rw [if_neg hin, if_pos hparse]
      exact linkReactive_id _ hp he
    rw [hstep]
    refine ⟨he, hn, hc, ?_⟩
    simp only [linkStep, provision_code_start]
    simp [hc, hg]
  · intro hparse
    have hstep : linkStep s (LinkEv.pollDone (Except.error e)) =
        { s with apiInProgress := false, is_error := true,
                 error_message := "Something went wrong! Try again!",
                 inflightSubmit := s.inflightSubmit.tail,
                 nav := some (LinkNav.linkSetupFailed
                   "Something went wrong! Try again!") } := by
      simp only [linkStep, provision_code_finish]
      rw [if_neg hin, if_neg (by simp [hparse])]
      unfold linkReactive
      simp [hn, hp]
    rw [hstep]
    exact ⟨rfl, rfl⟩

/-- C7 witness: both error classes at the concrete state reached by
mount, a generated code and one outstanding poll. -/
theorem c7_witness :
    (linkStep (linkRun [LinkEv.mount, LinkEv.genDone (Except.ok "AB"),
                        LinkEv.pollTick])
        (LinkEv.pollDone (Except.error "Failed to Parse Response"))).is_error
      = false ∧
    (linkStep (linkRun [LinkEv.mount, LinkEv.genDone (Except.ok "AB"),
                        LinkEv.pollTick])
        (LinkEv.pollDone (Except.error "connection refused"))).nav =
      some (LinkNav.linkSetupFailed "Something went wrong! Try again!") :=
  ⟨((c7_theorem (linkRun [LinkEv.mount, LinkEv.genDone (Except.ok "AB"),
                          LinkEv.pollTick]) "Failed to Parse Response"
      (by decide) (by decide) (by decide) (by decide) (by decide)
      (by decide)).1 (by decide)).1,
   ((c7_theorem (linkRun [LinkEv.mount, LinkEv.genDone (Except.ok "AB"),
                          LinkEv.pollTick]) "connection refused"
      (by decide) (by decide) (by decide) (by decide) (by decide)
      (by decide)).2 (by decide)).2⟩

set_option maxRecDepth 8000 in
/-- C8 counterexample: the claim says the countdown, upon reaching zero,
wraps back to 60; but the tick handler (lines 72-77) resets a
non-positive countdown to 60 and decrements within the same tick, so
after the countdown reaches 0 the next displayed value is 59, and 60 is
never displayed again without a new code issuance. -/
theorem c8_counterexample :
    (linkRun ([LinkEv.mount, LinkEv.genDone (Except.ok "Z")] ++
      List.replicate 60 LinkEv.timerTick)).countdown = 0 ∧
    (linkRun ([LinkEv.mount, LinkEv.genDone (Except.ok "Z")] ++
      List.replicate 61 LinkEv.timerTick)).countdown = 59 := by
  exact ⟨by rfl, by rfl⟩

/-- C8 (amended): the display countdown starts at 60, is reset to 60 by
every generate_code request (the mount request and every 60-second
rotation tick), ticks down by one per second while a code is active and
positive, and upon reaching a non-positive value the next tick resets it
to 60 and immediately decrements, yielding 59; while no code is active
the countdown does not move. -/
theorem c8_theorem (s : LinkState) :
    linkInit.countdown = 60 ∧
    (linkStep s LinkEv.mount).countdown = 60 ∧
    (s.cleared = false → (linkStep s LinkEv.genTick).countdown = 60) ∧
    (s.is_code_generated = true → s.cleared = false → 0 < s.countdown →
      (linkStep s LinkEv.timerTick).countdown = s.countdown - 1) ∧
    (s.is_code_generated = true → s.cleared = false → s.countdown ≤ 0 →
      (linkStep s LinkEv.timerTick).countdown = 59) ∧
    (s.is_code_generated = false → s.cleared = false →
      (linkStep s LinkEv.timerTick).countdown = s.countdown) := by
  refine ⟨rfl, ?_, ?_, ?_, ?_, ?_⟩
  · simp [linkStep, generate_code_start]
  · intro hc
    simp [linkStep, hc, generate_code_start]
  · intro hg hc hpos
    simp only [linkStep, if_neg (by simp [hc] : ¬(s.cleared = true))]
    simp [update_timer_tick, hg, Int.not_le.mpr hpos]
  · intro hg hc hle
    simp only [linkStep, if_neg (by simp [hc] : ¬(s.cleared = true))]
    simp [update_timer_tick, hg, hle]
  · intro hg hc
    simp only [linkStep, if_neg (by simp [hc] : ¬(s.cleared = true))]
    simp [update_timer_tick, hg]

/-- C8 witness: the amended behaviour at the state reached right after a
code is generated. -/
theorem c8_witness :
    (linkStep (linkRun [LinkEv.mount, LinkEv.genDone (Except.ok "Z")])
        LinkEv.timerTick).countdown =
      (linkRun [LinkEv.mount, LinkEv.genDone (Except.ok "Z")]).countdown - 1 :=
  (c8_theorem (linkRun [LinkEv.mount, LinkEv.genDone (Except.ok "Z")])).2.2.2.1
    (by decide) (by decide) (by decide)

/-- Ghost invariant of the pairing screen: while no generate_code call
has completed successfully, the code-generated flag is off and no
submitCode call has ever been issued. -/
def LinkGhostInv (s : LinkState) : Prop :=
  s.genOkCount = 0 →
    s.is_code_generated = false ∧ s.submitLog = [] ∧ s.inflightSubmit = []

/-- The ghost invariant is preserved by every event. -/
theorem linkStep_ghost_inv (s : LinkState) (e : LinkEv)
    (h : LinkGhostInv s) : LinkGhostInv (linkStep s e) := by
  cases e with
  | mount =>
    intro h0
    simp only [linkStep, linkReactive_genOkCount, generate_code_start] at h0
    obtain ⟨h1, h2, h3⟩ := h h0
    simp [linkStep, generate_code_start, h1, h2, h3]
  | genTick =>
    by_cases hcl : s.cleared = true
    · simpa [linkStep, hcl] using h
    · intro h0
      simp only [linkStep, if_neg hcl, linkReactive_genOkCount,
        generate_code_start] at h0
      obtain ⟨h1, h2, h3⟩ := h h0
      simp [linkStep, if_neg hcl, generate_code_start, h1, h2, h3]
  | genDone r =>
    by_cases hfl : s.inflightGen = 0
    · simpa [linkStep, hfl] using h
    · intro h0
      cases r with
      | ok code =>
        simp only [linkStep, if_neg hfl, linkReactive_genOkCount,
          generate_code_finish] at h0
        exact absurd h0 (Nat.succ_ne_zero _)
      | error e =>
        simp only [linkStep, if_neg hfl, linkReactive_genOkCount,
          generate_code_finish] at h0
        obtain ⟨h1, h2, h3⟩ := h h0
        simp [linkStep, if_neg hfl, generate_code_finish, h1, h2, h3]
  | pollTick =>
    by_cases hcl : s.cleared = true
    · simpa [linkStep, hcl] using h
    · intro h0
      simp only [linkStep, if_neg hcl, linkReactive_genOkCount,
        provision_code_start] at h0
      have h0' : s.genOkCount = 0 := by
        by_cases hg : s.is_code_generated = true <;> simp [hg] at h0 <;>
          exact h0
      obtain ⟨h1, h2, h3⟩ := h h0'
      simp [linkStep, if_neg hcl, provision_code_start, h1, h2, h3]
  | pollDone r =>
    by_cases hfl : s.inflightSubmit = []
    · simpa [linkStep, hfl] using h
    · intro h0
      have h0' : s.genOkCount = 0 := by
        cases r with
        | ok success =>
          by_cases hs : success = true <;>
            simpa [linkStep, if_neg hfl, provision_code_finish, hs] using h0
        | error e =>
          by_cases hp : jsIncludes (jsToLower e) "parse response" = true <;>
            simpa [linkStep, if_neg hfl, provision_code_finish, hp] using h0
      obtain ⟨h1, h2, h3⟩ := h h0'
      exact absurd h3 hfl
  | timerTick =>
    by_cases hcl : s.cleared = true
    · simpa [linkStep, hcl] using h
    · intro h0
      simp only [linkStep, if_neg hcl, linkReactive_genOkCount,
        update_timer_tick] at h0
      have h0' : s.genOkCount = 0 := by
        by_cases hg : s.is_code_generated = true <;> simp [hg] at h0 <;>
          exact h0
      obtain ⟨h1, h2, h3⟩ := h h0'
      simp [linkStep, if_neg hcl, update_timer_tick, h1, h2, h3]
  | destroy =>
    intro h0
    simp only [linkStep, clearIntervalProcess] at h0
    obtain ⟨h1, h2, h3⟩ := h h0
    simp [linkStep, clearIntervalProcess, h1, h2, h3]

/-- The ghost invariant holds after every trace. -/
theorem linkRun_ghost_inv (es : List LinkEv) : LinkGhostInv (linkRun es) := by
  have key : ∀ (l : List LinkEv) (s : LinkState),
      LinkGhostInv s → LinkGhostInv (l.foldl linkStep s) := by
    intro l
    induction l with
    | nil => intro s hs; exact hs
    | cons e t ih => intro s hs; exact ih _ (linkStep_ghost_inv s e hs)
  exact key es linkInit (fun _ => ⟨rfl, rfl, rfl⟩)

/-- C10: in every trace of the pairing screen, as long as no
generate_code call has completed successfully, no submitCode call has
ever been issued (neither completed nor outstanding) and the
code-generated flag gating the poll handler is still off — so the
initial placeholder code is never submitted to the agent. -/
theorem c10_theorem (es : List LinkEv)
    (h : (linkRun es).genOkCount = 0) :
    (linkRun es).submitLog = [] ∧ (linkRun es).inflightSubmit = [] ∧
    (linkRun es).is_code_generated = false := by
  obtain ⟨h1, h2, h3⟩ := linkRun_ghost_inv es h
  exact ⟨h2, h3, h1⟩

/-- C10 witness: a trace with poll and countdown ticks but no successful
generation submits nothing. -/
theorem c10_witness :
    (linkRun [LinkEv.mount, LinkEv.pollTick, LinkEv.timerTick,
              LinkEv.pollTick]).submitLog = [] :=
  (c10_theorem [LinkEv.mount, LinkEv.pollTick, LinkEv.timerTick,
                LinkEv.pollTick] (by decide)).1
